import Mathlib

/-!
Verification of the function-call dispatch and streaming-aggregation core of the
orca-dummy-agent repository.

The development shallowly embeds the Python sources:
  * `function_handler.py` — argument decoding, the loading-indicator guard,
    all tool handlers, the dispatch table, `execute_function_call` and
    `process_function_calls`;
  * `main.py` — the tool-call stream accumulator inside `process_message`
    and the conversation-memory updates around dispatch.

Session side effects are modelled as a trace of `Event`s; Python exceptions as
an explicit `Except PyErr`; simulated wall-clock time (for the loading guard)
as rationals.  All definitions are executable.
-/

/-! ## JSON values

Modelled from the spec: Python's `json.loads` (the Argument Decoder of spec
section 4.2) is library code, not part of this repository.  It is modelled here as a
small executable JSON parser over the JSON subset the agent exercises
(`\u` escapes and the leading-zero restriction on numbers are not modelled).
Number literals keep their surface lexeme.  Objects model Python dicts:
duplicate keys are resolved last-wins at parse time, insertion order is kept. -/

inductive Json where
  | null
  | bool (b : Bool)
  | num (lit : String)
  | str (s : String)
  | arr (elems : List Json)
  | obj (members : List (String × Json))
deriving Repr

/-- Dict lookup on an object's member list (first match; members are unique). -/
def objGet (m : List (String × Json)) (k : String) : Option Json :=
  (m.find? (fun p => p.1 == k)).map (·.2)

/-- Insert emulating Python dict assignment: replace in place or append. -/
def insertMember (ms : List (String × Json)) (k : String) (v : Json) :
    List (String × Json) :=
  if ms.any (fun p => p.1 == k) then
    ms.map (fun p => if p.1 == k then (k, v) else p)
  else ms ++ [(k, v)]

def skipWs : List Char → List Char
  | c :: cs => if c = ' ' ∨ c = '\t' ∨ c = '\n' ∨ c = '\r' then skipWs cs else c :: cs
  | [] => []

/-- Scan a JSON string body up to the closing quote, handling basic escapes. -/
def parseStringAux : List Char → String → Option (String × List Char)
  | [], _ => none
  | '"' :: rest, acc => some (acc, rest)
  | '\\' :: c :: rest, acc =>
    let esc : Option Char :=
      if c = '"' then some '"'
      else if c = '\\' then some '\\'
      else if c = '/' then some '/'
      else if c = 'n' then some '\n'
      else if c = 't' then some '\t'
      else if c = 'r' then some '\r'
      else if c = 'b' then some (Char.ofNat 8)
      else if c = 'f' then some (Char.ofNat 12)
      else none
    match esc with
    | some e => parseStringAux rest (acc.push e)
    | none => none
  | c :: rest, acc => parseStringAux rest (acc.push c)

def scanDigits : List Char → String → String × List Char
  | c :: cs, acc => if c.isDigit then scanDigits cs (acc.push c) else (acc, c :: cs)
  | [], acc => (acc, [])

def parseFrac : List Char → Option (String × List Char)
  | '.' :: r =>
    let (d, r1) := scanDigits r ""
    if d = "" then none else some ("." ++ d, r1)
  | cs => some ("", cs)

def parseExp : List Char → Option (String × List Char)
  | c :: r =>
    if c = 'e' ∨ c = 'E' then
      let (sgn, r1) := match r with
        | '+' :: t => ("+", t)
        | '-' :: t => ("-", t)
        | _ => ("", r)
      let (d, r2) := scanDigits r1 ""
      if d = "" then none else some (String.singleton c ++ sgn ++ d, r2)
    else some ("", c :: r)
  | [] => some ("", [])

def parseNumber (cs : List Char) : Option (String × List Char) := do
  let (sign, cs1) := match cs with
    | '-' :: r => ("-", r)
    | _ => ("", cs)
  let (ip, cs2) := scanDigits cs1 ""
  if ip = "" then none
  else do
    let (fp, cs3) ← parseFrac cs2
    let (ep, cs4) ← parseExp cs3
    some (sign ++ ip ++ fp ++ ep, cs4)

mutual

def parseValue : Nat → List Char → Option (Json × List Char)
  | 0, _ => none
  | fuel + 1, cs =>
    match skipWs cs with
    | 'n' :: 'u' :: 'l' :: 'l' :: r => some (.null, r)
    | 't' :: 'r' :: 'u' :: 'e' :: r => some (.bool true, r)
    | 'f' :: 'a' :: 'l' :: 's' :: 'e' :: r => some (.bool false, r)
    | '"' :: r => (parseStringAux r "").map (fun p => (.str p.1, p.2))
    | '[' :: r =>
      (match skipWs r with
       | ']' :: r1 => some (.arr [], r1)
       | cs1 => parseElems fuel cs1 [])
    | '{' :: r =>
      (match skipWs r with
       | '}' :: r1 => some (.obj [], r1)
       | cs1 => parseMembers fuel cs1 [])
    | c :: r =>
      if c.isDigit ∨ c = '-' then
        (parseNumber (c :: r)).map (fun p => (.num p.1, p.2))
      else none
    | [] => none

def parseElems : Nat → List Char → List Json → Option (Json × List Char)
  | 0, _, _ => none
  | fuel + 1, cs, acc => do
    let (v, r1) ← parseValue fuel cs
    match skipWs r1 with
    | ',' :: r2 => parseElems fuel r2 (acc ++ [v])
    | ']' :: r2 => some (.arr (acc ++ [v]), r2)
    | _ => none

def parseMembers : Nat → List Char → List (String × Json) →
    Option (Json × List Char)
  | 0, _, _ => none
  | fuel + 1, cs, acc =>
    match skipWs cs with
    | '"' :: r => do
      let (k, r1) ← parseStringAux r ""
      match skipWs r1 with
      | ':' :: r2 => do
        let (v, r3) ← parseValue fuel r2
        let acc1 := insertMember acc k v
        match skipWs r3 with
        | ',' :: r4 => parseMembers fuel r4 acc1
        | '}' :: r4 => some (.obj acc1, r4)
        | _ => none
      | _ => none
    | _ => none

end

/-- Modelled from the spec: `decode(rawArguments) -> structured mapping`
(Python `json.loads`), failing (`none`) on malformed text. -/
def jsonLoads (s : String) : Option Json := do
  let (v, rest) ← parseValue (2 * s.length + 4) s.data
  if skipWs rest = [] then some v else none

/-! ## Python value semantics helpers -/

/-- Python exceptions distinguished by kind, carrying a display message. -/
inductive PyErr where
  | keyError (key : String)
  | typeError (msg : String)
  | attributeError (msg : String)
  | jsonDecodeError (msg : String)
deriving Repr, DecidableEq

/-- `str(e)` — the text interpolated into error messages by `_fail`
(approximate for decode errors; no claim inspects these texts). -/
def pyErrStr : PyErr → String
  | .keyError k => "\x27" ++ k ++ "\x27"
  | .typeError m => m
  | .attributeError m => m
  | .jsonDecodeError m => m

/-- Python truthiness of a decoded JSON value (`if value:`). -/
def jsonTruthy : Json → Bool
  | .null => false
  | .bool b => b
  | .num s => s.any (fun c => c.isDigit && c != '0')
  | .str s => !s.isEmpty
  | .arr l => !l.isEmpty
  | .obj m => !m.isEmpty

mutual

/-- Python `==` between decoded values (order-sensitive for dicts; only used
for comparisons against string literals in this code base). -/
def jsonBeq : Json → Json → Bool
  | .null, .null => true
  | .bool a, .bool b => a == b
  | .num a, .num b => a == b
  | .str a, .str b => a == b
  | .arr a, .arr b => jsonListBeq a b
  | .obj a, .obj b => jsonMembersBeq a b
  | _, _ => false

def jsonListBeq : List Json → List Json → Bool
  | [], [] => true
  | a :: as, b :: bs => jsonBeq a b && jsonListBeq as bs
  | _, _ => false

def jsonMembersBeq : List (String × Json) → List (String × Json) → Bool
  | [], [] => true
  | (k1, v1) :: as, (k2, v2) :: bs => k1 == k2 && jsonBeq v1 v2 && jsonMembersBeq as bs
  | _, _ => false

end

mutual

/-- Python `repr()` of a decoded value (list/dict display with quotes). -/
def pyRepr : Json → String
  | .null => "None"
  | .bool true => "True"
  | .bool false => "False"
  | .num s => s
  | .str s => "\x27" ++ s ++ "\x27"
  | .arr l => "[" ++ pyReprList l ++ "]"
  | .obj m => "\x7b" ++ pyReprMembers m ++ "\x7d"

def pyReprList : List Json → String
  | [] => ""
  | [a] => pyRepr a
  | a :: rest => pyRepr a ++ ", " ++ pyReprList rest

def pyReprMembers : List (String × Json) → String
  | [] => ""
  | [(k, v)] => "\x27" ++ k ++ "\x27: " ++ pyRepr v
  | (k, v) :: rest => "\x27" ++ k ++ "\x27: " ++ pyRepr v ++ ", " ++ pyReprMembers rest

end

/-- Python `str()` of a decoded value, as interpolated into f-strings. -/
def pyStrOf : Json → String
  | .str s => s
  | v => pyRepr v

/-- f-string rendering of an optional value (`None` prints as "None"). -/
def pyOptStr : Option Json → String
  | some v => pyStrOf v
  | none => "None"

/-- f-string rendering of an optional string (Python `None` prints "None"). -/
def pyStr : Option String → String
  | some s => s
  | none => "None"

/-- `value[k]` on a decoded value: `KeyError` on a dict without the key,
`TypeError` on non-dict values (string indexing by a string, etc.). -/
def pyIndex (v : Json) (k : String) : Except PyErr Json :=
  match v with
  | .obj m =>
    match objGet m k with
    | some x => .ok x
    | none => .error (.keyError k)
  | .str _ => .error (.typeError "string indices must be integers")
  | .arr _ => .error (.typeError "list indices must be integers or slices, not str")
  | _ => .error (.typeError "object is not subscriptable")

/-- `value.get(k)` — only dicts have `.get`; returns `none` for a missing key. -/
def pyGet (v : Json) (k : String) : Except PyErr (Option Json) :=
  match v with
  | .obj m => .ok (objGet m k)
  | _ => .error (.attributeError "object has no attribute get")

/-- `value.get(k, default)`. -/
def pyGetD (v : Json) (k : String) (d : Json) : Except PyErr Json :=
  (pyGet v k).map (fun o => o.getD d)

/-- Total variant of `.get(k)` used where the receiver is already known to be a
dict on every reachable path (`args.get("prompt")` after a successful
`**args` call). -/
def pyGetOr (v : Json) (k : String) : Option Json :=
  match pyGet v k with
  | .ok o => o
  | .error _ => none

/-- Substring test on character lists (used for Python `in` on strings and in
witness statements about message contents). -/
def isPrefixB : List Char → List Char → Bool
  | [], _ => true
  | _ :: _, [] => false
  | a :: as, b :: bs => a == b && isPrefixB as bs

def isInfixB : List Char → List Char → Bool
  | pat, [] => pat.isEmpty
  | pat, c :: cs => isPrefixB pat (c :: cs) || isInfixB pat cs

/-- `k in value` (dict key test, substring test on strings, membership on
lists; `TypeError` otherwise). -/
def pyContainsKey (v : Json) (k : String) : Except PyErr Bool :=
  match v with
  | .obj m => .ok (objGet m k).isSome
  | .str s => .ok (isInfixB k.data s.data)
  | .arr l => .ok (l.any (fun e => jsonBeq e (.str k)))
  | _ => .error (.typeError "argument of type is not iterable")

/-- `int`-context coercion as used by `range(1, count + 1)`: Python ints and
bools are accepted, floats and other values raise `TypeError`. -/
def parseIntLit (s : String) : Option Int :=
  match s.data with
  | '-' :: ds => if ds ≠ [] ∧ ds.all Char.isDigit
      then some (-(Int.ofNat (ds.foldl (fun n c => n * 10 + (c.toNat - 48)) 0)))
      else none
  | ds => if ds ≠ [] ∧ ds.all Char.isDigit
      then some (Int.ofNat (ds.foldl (fun n c => n * 10 + (c.toNat - 48)) 0))
      else none

def pyToInt (v : Json) : Except PyErr Int :=
  match v with
  | .bool b => .ok (if b then 1 else 0)
  | .num s =>
    match parseIntLit s with
    | some n => .ok n
    | none => .error (.typeError "float object cannot be interpreted as an integer")
  | _ => .error (.typeError "object cannot be interpreted as an integer")

/-- `len(value)` for sized values, `TypeError` otherwise. -/
def pyLen (v : Json) : Except PyErr Nat :=
  match v with
  | .str s => .ok s.length
  | .arr l => .ok l.length
  | .obj m => .ok m.length
  | _ => .error (.typeError "object has no len")

/-- `sep.join(iterable)`: every element must be a string. -/
def pyJoinList (sep : String) : List Json → Except PyErr String
  | [] => .ok ""
  | [.str s] => .ok s
  | .str s :: rest => (pyJoinList sep rest).map (fun t => s ++ sep ++ t)
  | _ => .error (.typeError "sequence item: expected str instance")

def pyJoin (sep : String) (v : Json) : Except PyErr String :=
  match v with
  | .arr l => pyJoinList sep l
  | .str s => pyJoinList sep (s.data.map (fun c => .str (String.singleton c)))
  | .obj m => pyJoinList sep (m.map (fun p => .str p.1))
  | _ => .error (.typeError "can only join an iterable")

/-- Python `str.capitalize` (ASCII model). -/
def pyCapitalize (s : String) : String :=
  match s.data with
  | [] => ""
  | c :: cs => String.mk (c.toUpper :: cs.map Char.toLower)

/-! ## Session events, tool calls and fragments -/

/-- One user-visible side effect on the session/streaming collaborator
(spec section 6 capability set).  `streamArgs` models the
`session.stream(f"📋 **Arguments:** {json.dumps(parsed_args, indent=2)} ")`
call in `execute_function_call`, carrying the parsed payload.
`streamChunk`, `completeResponse` and `errorSend` model the
`lexia.stream_chunk` / `complete_response` / `send_error` calls of
`main.py`. -/
inductive Event where
  | stream (s : String)
  | streamArgs (payload : Json)
  | loadingStart (key : String)
  | loadingEnd (key : String)
  | imageSend (url : Json)
  | videoSend (url : Json)
  | videoYoutube (url : Json)
  | audioSend (tracks : List Json)
  | audioSendSingle (url : Json) (label : Option Json) (mime : Option Json)
  | locationSend (lat : Json) (lng : Json)
  | tracingSend (content : Json) (visibility : Json)
  | buttonBegin
  | buttonAddLink (label : Json) (url : Json) (row : Option Json) (color : Option Json)
  | buttonAddAction (label : Json) (actionId : Json) (row : Option Json) (color : Option Json)
  | buttonEnd
  | cardSend (cards : Json)
  | usageTrack (tokens : Json) (tokenType : Json) (cost : Option Json) (label : Option Json)
  | streamChunk (s : String)
  | completeResponse (full : String) (fileUrl : Option String)
  | errorSend (s : String)
deriving Repr

/-- A reassembled tool call: the dict
`{"id": ..., "type": "function", "function": {"name": ..., "arguments": ...}}`
built by the accumulator in `main.py` (the constant `"type"` field is
omitted).  `id` and `name` are `Option` because the OpenAI delta carries them
only on a call's first fragment and they may be `None`. -/
structure ToolCall where
  id : Option String
  name : Option String
  arguments : String
deriving Repr, DecidableEq

/-- One tool-call fragment of the model's streaming response
(`tool_call` in the delta loop of `main.py`); fragments whose `function`
field is absent are skipped by the source loop and are not modelled.
`chunk` is `tool_call.function.arguments`, with `""` standing for both the
empty string and `None` (the source treats both as falsy and skips the
append, which is a no-op for `""`). -/
structure Fragment where
  index : Nat
  id : Option String
  name : Option String
  chunk : String
deriving Repr, DecidableEq

/-! ## Loading-indicator guard (`_run_with_loading`) -/

/-- A wrapped awaitable: its simulated duration, the session events it emits,
and its result or raised exception. -/
structure TimedOp (α : Type) where
  time : ℚ
  events : List Event
  result : Except PyErr α

/-- Outcome of `_run_with_loading`: full event trace, total elapsed time,
time spent in the top-up `asyncio.sleep`, and the propagated result. -/
structure GuardRun (α : Type) where
  events : List Event
  time : ℚ
  slept : ℚ
  result : Except PyErr α

/-- `_run_with_loading(session, key, coro, min_delay)`: start the indicator,
await the operation, top up to `min_delay` on success, and always end the
indicator (the `finally` block).  When the operation raises, the elapsed /
sleep computation is skipped and the exception propagates after the
`finally` end-signal. -/
def runWithLoading (key : String) (minDelay : ℚ) (op : TimedOp α) : GuardRun α :=
  match op.result with
  | .ok a =>
    let slept := if op.time < minDelay then minDelay - op.time else 0
    { events := [.loadingStart key] ++ op.events ++ [.loadingEnd key]
      time := op.time + slept
      slept := slept
      result := .ok a }
  | .error e =>
    { events := [.loadingStart key] ++ op.events ++ [.loadingEnd key]
      time := op.time
      slept := 0
      result := .error e }

/-- Number of `loading.end(key)` signals in a trace. -/
def countLoadingEnd (key : String) (evs : List Event) : Nat :=
  (evs.filter (fun e => match e with
    | .loadingEnd k => k == key
    | _ => false)).length

/-! ## Tool handlers (`function_handler.py`) -/

/-- Result of one handler invocation: emitted session events and either the
returned `(message, artifact_url)` pair or an exception that escaped the
handler. -/
structure HandlerRun where
  events : List Event
  out : Except PyErr (String × Option String)
deriving Repr

/-- `_fail(fn_name, error)`: the standardized execution-error result. -/
def _fail (fnName : String) (e : PyErr) : String × Option String :=
  ("  ❌ **Function Execution Error:** Error executing function `" ++ fnName ++
   "`: " ++ pyErrStr e, none)

/-- `_parse_args` raising `json.JSONDecodeError`: no events were emitted yet
when a handler's first line fails. -/
def parseFailRun : HandlerRun :=
  ⟨[], .error (.jsonDecodeError "Expecting value")⟩

/-- The fixed placeholder returned by the dummy `generate_image_with_dalle`. -/
def dummyImageUrl : String :=
  "https://fsn1.your-objectstorage.com/lexia-production/demo/images/generated_1758945096.png"

def dalleKeywords : List String := ["prompt", "size", "quality", "style"]

/-- Keyword binding of `generate_image_with_dalle(**args)`: requires a
mapping whose keys are all known parameters and include `prompt`. -/
def dalleBind (args : Json) : Except PyErr Unit :=
  match args with
  | .obj m =>
    if m.any (fun p => !(dalleKeywords.contains p.1)) then
      .error (.typeError "generate_image_with_dalle() got an unexpected keyword argument")
    else if (objGet m "prompt").isNone then
      .error (.typeError "generate_image_with_dalle() missing 1 required positional argument: \x27prompt\x27")
    else .ok ()
  | _ => .error (.typeError "argument after ** must be a mapping")

/-- The `job()` coroutine of `handle_generate_image`: binds `**args`, sleeps
1 second, returns the fixed placeholder URL. -/
def dalleJob (args : Json) : TimedOp String :=
  match dalleBind args with
  | .ok _ => ⟨1, [], .ok dummyImageUrl⟩
  | .error e => ⟨0, [], .error e⟩

def handle_generate_image (fc : ToolCall) : HandlerRun :=
  match jsonLoads fc.arguments with
  | none => parseFailRun
  | some args =>
    let ev0 : List Event := [.stream " 🚀 **Executing function:** generate_image (Dummy Mode)"]
    let g := runWithLoading "generating" (3/2) (dalleJob args)
    match g.result with
    | .ok url =>
      let result := "  🎨 **Dummy Image Generated Successfully!**  **Prompt:** " ++
        pyOptStr (pyGetOr args "prompt")
      ⟨ev0 ++ g.events ++ [.imageSend (.str url), .stream result], .ok (result, some url)⟩
    | .error e => ⟨ev0 ++ g.events, .ok (_fail "generate_image" e)⟩

/-- The `job()` of `handle_send_video`: sleeps, then reads
`args["url"]` and `args.get("is_youtube", False)`. -/
def videoJob (args : Json) : TimedOp (Json × Json) :=
  ⟨1, [], do
    let u ← pyIndex args "url"
    let y ← pyGetD args "is_youtube" (.bool false)
    return (u, y)⟩

def handle_send_video (fc : ToolCall) : HandlerRun :=
  match jsonLoads fc.arguments with
  | none => parseFailRun
  | some args =>
    let g := runWithLoading "video" (3/2) (videoJob args)
    match g.result with
    | .ok (u, y) =>
      ⟨g.events ++ [if jsonTruthy y then .videoYoutube u else .videoSend u],
       .ok (" ✅ Video sent: " ++ pyStrOf u, none)⟩
    | .error e => ⟨g.events, .ok (_fail "send_video" e)⟩

/-- `track_dict` construction inside the tracks loop of `handle_send_audio`. -/
def convertTrack (t : Json) : Except PyErr Json := do
  let u ← pyIndex t "url"
  let lab ← pyGet t "label"
  let mt ← pyGet t "mime_type"
  let base := [("url", u)]
  let withLab := match lab with
    | some lv => if jsonTruthy lv then base ++ [("label", lv)] else base
    | none => base
  let withMt := match mt with
    | some mv => if jsonTruthy mv then withLab ++ [("type", mv)] else withLab
    | none => withLab
  return (.obj withMt)

/-- Iterating `data["tracks"]` in a `for` loop: lists iterate elements;
a (necessarily truthy here) string or dict fails on the first element's
`track["url"]`; other values are not iterable. -/
def buildTracksJ : Json → Except PyErr (List Json)
  | .arr l => l.mapM convertTrack
  | .str s => if s.isEmpty then .ok []
      else .error (.typeError "string indices must be integers")
  | .obj m => if m.isEmpty then .ok []
      else .error (.typeError "string indices must be integers")
  | _ => .error (.typeError "object is not iterable")

def jsonLenD (v : Json) : Nat :=
  match pyLen v with
  | .ok n => n
  | .error _ => 0

/-- Body of `handle_send_audio` after the guarded echo of `args`:
`if "tracks" in data and data["tracks"]` / `elif "url" in data` / `else`. -/
def sendAudioBody (data : Json) : Except PyErr (List Event × String × Option String) := do
  let hasTracks ← pyContainsKey data "tracks"
  let cond ← if hasTracks then do
      let tv ← pyIndex data "tracks"
      pure (jsonTruthy tv)
    else pure false
  if cond then do
    let tv ← pyIndex data "tracks"
    let built ← buildTracksJ tv
    return ([.audioSend built],
            " ✅ " ++ toString (jsonLenD tv) ++ " audio track(s) sent", none)
  else do
    let hasUrl ← pyContainsKey data "url"
    if hasUrl then do
      let u ← pyIndex data "url"
      let lab ← pyGet data "label"
      let mt ← pyGet data "mime_type"
      return ([.audioSendSingle u lab mt], " ✅ Audio sent", none)
    else
      return ([], " ❌ No audio URL or tracks provided", none)

def handle_send_audio (fc : ToolCall) : HandlerRun :=
  match jsonLoads fc.arguments with
  | none => parseFailRun
  | some args =>
    let g := runWithLoading "audio" (3/2) (⟨1, [], .ok args⟩ : TimedOp Json)
    match g.result with
    | .ok data =>
      match sendAudioBody data with
      | .ok (ev, m, u) => ⟨g.events ++ ev, .ok (m, u)⟩
      | .error e => ⟨g.events, .ok (_fail "send_audio" e)⟩
    | .error e => ⟨g.events, .ok (_fail "send_audio" e)⟩

def locationJob (args : Json) : TimedOp (Json × Json) :=
  ⟨1, [], do
    let lat ← pyIndex args "lat"
    let lng ← pyIndex args "lng"
    return (lat, lng)⟩

def handle_send_location (fc : ToolCall) : HandlerRun :=
  match jsonLoads fc.arguments with
  | none => parseFailRun
  | some args =>
    let g := runWithLoading "map" (3/2) (locationJob args)
    match g.result with
    | .ok (lat, lng) =>
      ⟨g.events ++ [.locationSend lat lng], .ok (" ✅ Location sent", none)⟩
    | .error e => ⟨g.events, .ok (_fail "send_location" e)⟩

/-- `handle_send_trace` has no try/except: a missing `content` key or a
non-dict payload raises past the handler. -/
def handle_send_trace (fc : ToolCall) : HandlerRun :=
  match jsonLoads fc.arguments with
  | none => parseFailRun
  | some args =>
    match (do
      let c ← pyIndex args "content"
      let vis ← pyGetD args "visibility" (.str "all")
      pure (c, vis) : Except PyErr (Json × Json)) with
    | .ok (c, vis) => ⟨[.tracingSend c vis], .ok (" ✅ Trace sent", none)⟩
    | .error e => ⟨[], .error e⟩

/-- One iteration of the buttons loop: `none` models the `continue` taken
when the authoritative identifier is missing (logged, no event). -/
def processButton (b : Json) : Except PyErr (Option Event) := do
  let btype ← pyGetD b "type" (.str "action")
  let label ← pyGetD b "label" (.str "")
  let row ← pyGet b "row"
  let color ← pyGet b "color"
  if jsonBeq btype (.str "link") then do
    let uOpt ← pyGet b "url"
    let vDef ← pyGetD b "value" (.str "")
    let url := match uOpt with
      | some u => if jsonTruthy u then u else vDef
      | none => vDef
    if jsonTruthy url then return (some (.buttonAddLink label url row color))
    else return none
  else do
    let iOpt ← pyGet b "id"
    let vDef ← pyGetD b "value" (.str "")
    let aid := match iOpt with
      | some i => if jsonTruthy i then i else vDef
      | none => vDef
    if jsonTruthy aid then return (some (.buttonAddAction label aid row color))
    else return none

/-- The buttons `for` loop, preserving events emitted before a raise. -/
def buttonLoop : List Json → List Event → List Event × Option PyErr
  | [], acc => (acc, none)
  | b :: rest, acc =>
    match processButton b with
    | .ok (some e) => buttonLoop rest (acc ++ [e])
    | .ok none => buttonLoop rest acc
    | .error e => (acc, some e)

/-- `for b in args["buttons"]` iterability (strings iterate characters,
dicts iterate keys — either fails in the loop body on `.get`). -/
def buttonIter : Json → Except PyErr (List Json)
  | .arr l => .ok l
  | .str s => .ok (s.data.map (fun c => .str (String.singleton c)))
  | .obj m => .ok (m.map (fun p => .str p.1))
  | _ => .error (.typeError "object is not iterable")

/-- `handle_send_buttons` has no try/except: `session.button.begin()` runs
first, then a missing `buttons` key raises past the handler. -/
def handle_send_buttons (fc : ToolCall) : HandlerRun :=
  match jsonLoads fc.arguments with
  | none => parseFailRun
  | some args =>
    match pyIndex args "buttons" with
    | .error e => ⟨[.buttonBegin], .error e⟩
    | .ok bsVal =>
      match buttonIter bsVal with
      | .error e => ⟨[.buttonBegin], .error e⟩
      | .ok bs =>
        match buttonLoop bs [] with
        | (evs, none) => ⟨[.buttonBegin] ++ evs ++ [.buttonEnd], .ok (" ✅ Buttons sent", none)⟩
        | (evs, some e) => ⟨[.buttonBegin] ++ evs, .error e⟩

def cardJob (args : Json) : TimedOp Json :=
  ⟨1, [], pyIndex args "cards"⟩

def handle_send_card_list (fc : ToolCall) : HandlerRun :=
  match jsonLoads fc.arguments with
  | none => parseFailRun
  | some args =>
    let g := runWithLoading "card.list" (3/2) (cardJob args)
    match g.result with
    | .ok cards => ⟨g.events ++ [.cardSend cards], .ok (" ✅ Card list sent", none)⟩
    | .error e => ⟨g.events, .ok (_fail "send_card_list" e)⟩

/-- `handle_track_usage` has no try/except: missing required keys raise. -/
def handle_track_usage (fc : ToolCall) : HandlerRun :=
  match jsonLoads fc.arguments with
  | none => parseFailRun
  | some args =>
    match (do
      let t ← pyIndex args "tokens"
      let tt ← pyIndex args "token_type"
      let c ← pyGet args "cost"
      let l ← pyGet args "label"
      pure (t, tt, c, l) : Except PyErr (Json × Json × Option Json × Option Json)) with
    | .ok (t, tt, c, l) => ⟨[.usageTrack t tt c l], .ok (" ✅ Usage tracked", none)⟩
    | .error e => ⟨[], .error e⟩

/-! ## Demo/test handlers (`_demo_*`, `handle_complete_streaming_example`,
`handle_test_*`) -/

/-- `_demo_loading_state(session, state_name, message)`. -/
def demoLoadingState (key msg : String) : List Event :=
  [.loadingStart key, .stream (" " ++ msg ++ " "), .loadingEnd key]

def demoImage : List Event :=
  demoLoadingState "image" "Image loaded successfully!" ++
  [.imageSend (.str "https://picsum.photos/400/300"), .stream "\n"]

def demoVideo : List Event :=
  demoLoadingState "video" "Video loaded!" ++
  [.videoSend (.str "https://commondatastorage.googleapis.com/gtv-videos-bucket/sample/BigBuckBunny.mp4"),
   .stream "\n"]

def demoYoutube : List Event :=
  demoLoadingState "youtube" "YouTube video loaded!" ++
  [.videoYoutube (.str "https://www.youtube.com/watch?v=dQw4w9WgXcQ"), .stream "\n"]

def demoCards : List Event :=
  demoLoadingState "card.list" "Cards loaded!" ++
  [.cardSend (.arr [
    .obj [("photo", .str "https://picsum.photos/300/200?random=1"),
          ("header", .str "Card 1"), ("subheader", .str "First result"),
          ("text", .str "Detailed information about card 1")],
    .obj [("photo", .str "https://picsum.photos/300/200?random=2"),
          ("header", .str "Card 2"), ("subheader", .str "Second result"),
          ("text", .str "Detailed information about card 2")],
    .obj [("photo", .str "https://picsum.photos/300/200?random=3"),
          ("header", .str "Card 3"), ("subheader", .str "Third result"),
          ("text", .str "Detailed information about card 3")]]),
   .stream "\n"]

def demoMap : List Event :=
  demoLoadingState "map" "Map loaded! This is Tehran, Iran." ++
  [.locationSend (.num "35.6892") (.num "51.389"), .stream "\n"]

def demoButtons : List Event :=
  [.stream "## Additional Content\n\nHere are some buttons:\n\n", .buttonBegin,
   .buttonAddAction (.str "Get More Info") (.str "1") (some (.num "1")) none,
   .buttonAddAction (.str "Save Results") (.str "2") (some (.num "1")) none,
   .buttonAddLink (.str "Visit Website") (.str "https://example.com") (some (.num "2")) none,
   .buttonEnd, .stream "\n"]

def demoAudio : List Event :=
  [.stream "## Audio Content  "] ++ demoLoadingState "audio" "" ++
  [.audioSend [
    .obj [("url", .str "https://www.soundhelix.com/examples/mp3/SoundHelix-Song-1.mp3"),
          ("label", .str "Sample Audio 1"), ("type", .str "audio/mpeg")],
    .obj [("url", .str "https://www.soundhelix.com/examples/mp3/SoundHelix-Song-2.mp3"),
          ("label", .str "Sample Audio 2"), ("type", .str "audio/mpeg")]],
   .stream "\n"]

def demoCodeText : String :=
  "## Code Example\n\n```javascript\nconst example = \x7b\n  message: \"Streaming complete!\",\n  timestamp: new Date().toISOString(),\n  status: \"success\"\n\x7d;\nconsole.log(example);\n```\n\n"

def demoCode : List Event := [.stream demoCodeText]

/-- `str(trace_content)` — Python dict display of the fixed trace payload. -/
def demoTracingText : String :=
  "\x7b\x27request_id\x27: \x27req_complete_stream\x27, \x27timestamp\x27: \x272024-12-31T10:00:00Z\x27, \x27duration\x27: \x275000ms\x27, \x27status\x27: \x27success\x27, \x27model\x27: \x27gpt-4\x27, \x27tokens\x27: 500, \x27message\x27: \x27Complete streaming example finished successfully\x27\x7d"

def demoTracing : List Event :=
  [.stream "## Tracing Information  ",
   .tracingSend (.str demoTracingText) (.str "all"), .stream "\n"]

/-- `handle_complete_streaming_example` never parses its arguments and its
body raises nothing, so it always succeeds. -/
def handle_complete_streaming_example (_fc : ToolCall) : HandlerRun :=
  ⟨demoLoadingState "thinking" "Thinking..." ++
   demoLoadingState "searching" "Searching..." ++
   demoLoadingState "analyzing" "Analyzing..." ++
   demoLoadingState "coding" "Coding..." ++
   demoLoadingState "generating" "Generating..." ++
   demoImage ++ demoVideo ++ demoYoutube ++ demoCards ++ demoMap ++ demoAudio ++
   demoCode ++ demoTracing ++ demoButtons,
   .ok (" ✅ Complete streaming example executed successfully!", none)⟩

def knownStates : List String :=
  ["thinking", "searching", "analyzing", "coding", "generating"]

/-- `for state in states` iteration candidates. -/
def statesIter : Json → List Json
  | .arr l => l
  | .str s => s.data.map (fun c => .str (String.singleton c))
  | .obj m => m.map (fun p => .str p.1)
  | _ => []

def testStateEvents (st : Json) : List Event :=
  match st with
  | .str s =>
    if knownStates.contains s then
      demoLoadingState s (pyCapitalize s ++ " state tested!")
    else [.stream (" ⚠️ Unknown state: " ++ s ++ " ")]
  | v => [.stream (" ⚠️ Unknown state: " ++ pyStrOf v ++ " ")]

def handle_test_loading_states (fc : ToolCall) : HandlerRun :=
  match jsonLoads fc.arguments with
  | none => parseFailRun
  | some args =>
    match pyGetD args "states" (.arr (knownStates.map .str)) with
    | .error e => ⟨[], .error e⟩
    | .ok sv =>
      match pyLen sv, pyJoin ", " sv with
      | .ok n, .ok joined =>
        let ev0 : List Event :=
          [.stream ("# Testing Loading States  Testing " ++ toString n ++
            " loading state(s): " ++ joined ++ "  ")]
        let loopEvs := (statesIter sv).foldl (fun acc st => acc ++ testStateEvents st) []
        ⟨ev0 ++ loopEvs,
         .ok (" ✅ Tested " ++ toString n ++ " loading state(s) successfully!", none)⟩
      | .error e, _ => ⟨[], .error e⟩
      | _, .error e => ⟨[], .error e⟩

def handle_test_image (fc : ToolCall) : HandlerRun :=
  match jsonLoads fc.arguments with
  | none => parseFailRun
  | some args =>
    match pyGetD args "url" (.str "https://picsum.photos/400/300") with
    | .error e => ⟨[], .error e⟩
    | .ok url =>
      ⟨[.stream ("# Testing Image  Image URL: " ++ pyStrOf url ++ "  ")] ++
       demoLoadingState "image" "Image loaded successfully!" ++
       [.imageSend url, .stream "\n"],
       .ok (" ✅ Image test completed: " ++ pyStrOf url, none)⟩

def handle_test_video (fc : ToolCall) : HandlerRun :=
  match jsonLoads fc.arguments with
  | none => parseFailRun
  | some args =>
    match (do
      let u ← pyGetD args "url"
        (.str "https://commondatastorage.googleapis.com/gtv-videos-bucket/sample/BigBuckBunny.mp4")
      let y ← pyGetD args "is_youtube" (.bool false)
      pure (u, y) : Except PyErr (Json × Json)) with
    | .error e => ⟨[], .error e⟩
    | .ok (url, y) =>
      ⟨[.stream ("# Testing Video  Video URL: " ++ pyStrOf url ++ " YouTube: " ++
          pyStrOf y ++ "  ")] ++
       demoLoadingState (if jsonTruthy y then "youtube" else "video") "Video loaded!" ++
       [if jsonTruthy y then .videoYoutube url else .videoSend url, .stream "\n"],
       .ok (" ✅ Video test completed: " ++ pyStrOf url, none)⟩

/-- `range(1, count + 1)` as a list of Python ints. -/
def intRangeIncl (a b : Int) : List Int :=
  (List.range (b - a + 1).toNat).map (fun k => a + k)

def mkTestCard (i : Int) : Json :=
  .obj [("photo", .str ("https://picsum.photos/300/200?random=" ++ toString i)),
        ("header", .str ("Card " ++ toString i)),
        ("subheader", .str ("Result " ++ toString i)),
        ("text", .str ("Detailed information about card " ++ toString i))]

def handle_test_cards (fc : ToolCall) : HandlerRun :=
  match jsonLoads fc.arguments with
  | none => parseFailRun
  | some args =>
    match pyGetD args "count" (.num "3") with
    | .error e => ⟨[], .error e⟩
    | .ok count =>
      let ev0 : List Event :=
        [.stream ("# Testing Cards  Generating " ++ pyStrOf count ++ " card(s)...  ")]
      let demo := demoLoadingState "card.list" (pyStrOf count ++ " cards loaded!")
      match pyToInt count with
      | .error e => ⟨ev0 ++ demo, .ok (_fail "test_cards" e)⟩
      | .ok ci =>
        ⟨ev0 ++ demo ++
         [.cardSend (.arr ((intRangeIncl 1 ci).map mkTestCard)), .stream "\n"],
         .ok (" ✅ Cards test completed: " ++ pyStrOf count ++ " cards", none)⟩

def mkTestTrack (i : Int) : Json :=
  .obj [("url", .str ("https://www.soundhelix.com/examples/mp3/SoundHelix-Song-" ++
           toString i ++ ".mp3")),
        ("label", .str ("Sample Audio " ++ toString i)),
        ("type", .str "audio/mpeg")]

def handle_test_audio (fc : ToolCall) : HandlerRun :=
  match jsonLoads fc.arguments with
  | none => parseFailRun
  | some args =>
    match pyGetD args "count" (.num "2") with
    | .error e => ⟨[], .error e⟩
    | .ok count =>
      let ev0 : List Event :=
        [.stream ("# Testing Audio  Generating " ++ pyStrOf count ++ " audio track(s)...  ")]
      let demo := demoLoadingState "audio" ""
      match pyToInt count with
      | .error e => ⟨ev0 ++ demo, .ok (_fail "test_audio" e)⟩
      | .ok ci =>
        ⟨ev0 ++ demo ++
         [.audioSend ((intRangeIncl 1 ci).map mkTestTrack), .stream "\n"],
         .ok (" ✅ Audio test completed: " ++ pyStrOf count ++ " tracks", none)⟩

def handle_test_map (fc : ToolCall) : HandlerRun :=
  match jsonLoads fc.arguments with
  | none => parseFailRun
  | some args =>
    match (do
      let lat ← pyGetD args "lat" (.num "35.6892")
      let lng ← pyGetD args "lng" (.num "51.389")
      pure (lat, lng) : Except PyErr (Json × Json)) with
    | .error e => ⟨[], .error e⟩
    | .ok (lat, lng) =>
      ⟨[.stream ("# Testing Map  Coordinates: " ++ pyStrOf lat ++ ", " ++
          pyStrOf lng ++ "  ")] ++
       demoLoadingState "map"
         ("Map loaded! Coordinates: " ++ pyStrOf lat ++ ", " ++ pyStrOf lng) ++
       [.locationSend lat lng, .stream "\n"],
       .ok (" ✅ Map test completed: " ++ pyStrOf lat ++ ", " ++ pyStrOf lng, none)⟩

def mkTestButton (i : Int) : Event :=
  if i % 2 = 0 then
    .buttonAddLink (.str ("Link " ++ toString i))
      (.str ("https://example.com/" ++ toString i))
      (some (.num (toString ((i + 1) / 2)))) none
  else
    .buttonAddAction (.str ("Action " ++ toString i)) (.str (toString i))
      (some (.num (toString ((i + 1) / 2)))) none

def handle_test_buttons (fc : ToolCall) : HandlerRun :=
  match jsonLoads fc.arguments with
  | none => parseFailRun
  | some args =>
    match pyGetD args "count" (.num "3") with
    | .error e => ⟨[], .error e⟩
    | .ok count =>
      let ev0 : List Event :=
        [.stream ("# Testing Buttons  Generating " ++ pyStrOf count ++ " button(s)...  ")]
      match pyToInt count with
      | .error e => ⟨ev0 ++ [.buttonBegin], .ok (_fail "test_buttons" e)⟩
      | .ok ci =>
        ⟨ev0 ++ [.buttonBegin] ++ (intRangeIncl 1 ci).map mkTestButton ++
         [.buttonEnd, .stream "\n"],
         .ok (" ✅ Buttons test completed: " ++ pyStrOf count ++ " buttons", none)⟩

/-! ## Dispatch and aggregation (`FUNCTION_HANDLERS`,
`execute_function_call`, `process_function_calls`) -/

def FUNCTION_HANDLERS : String → Option (ToolCall → HandlerRun) :=
  fun n =>
    match n with
    | "generate_image" => some handle_generate_image
    | "send_video" => some handle_send_video
    | "send_audio" => some handle_send_audio
    | "send_location" => some handle_send_location
    | "send_trace" => some handle_send_trace
    | "send_buttons" => some handle_send_buttons
    | "send_card_list" => some handle_send_card_list
    | "track_usage" => some handle_track_usage
    | "complete_streaming_example" => some handle_complete_streaming_example
    | "test_loading_states" => some handle_test_loading_states
    | "test_image" => some handle_test_image
    | "test_video" => some handle_test_video
    | "test_cards" => some handle_test_cards
    | "test_audio" => some handle_test_audio
    | "test_map" => some handle_test_map
    | "test_buttons" => some handle_test_buttons
    | _ => none

/-- `FUNCTION_HANDLERS.get(fn_name)`: a call whose name was never delivered
holds Python `None`, which matches no dict key. -/
def lookupHandler : Option String → Option (ToolCall → HandlerRun)
  | some n => FUNCTION_HANDLERS n
  | none => none

/-- Result of `execute_function_call`: the defensive try/except around the
handler makes the returned pair total — no exception escapes this layer. -/
structure ExecRun where
  events : List Event
  result : String × Option String
deriving Repr

/-- The `session.stream` of pretty-printed arguments: attempted only for a
non-empty, non-"\x7b\x7d" raw string, swallowing parse failures
(`except: pass`) and skipping falsy parses. -/
def argsEchoEvents (rawArgs : String) : List Event :=
  if rawArgs ≠ "" ∧ rawArgs ≠ "\x7b\x7d" then
    match jsonLoads rawArgs with
    | some p => if jsonTruthy p then [.streamArgs p] else []
    | none => []
  else []

def execute_function_call (fc : ToolCall) : ExecRun :=
  let ev0 : List Event :=
    [.stream (" 🔧 **Tool Called:** `" ++ pyStr fc.name ++ "` ")] ++
    argsEchoEvents fc.arguments
  match lookupHandler fc.name with
  | none => ⟨ev0, (" ❌ Unknown function: " ++ pyStr fc.name, none)⟩
  | some h =>
    let r := h fc
    match r.out with
    | .ok (m, u) => ⟨ev0 ++ r.events, (m, u)⟩
    | .error e => ⟨ev0 ++ r.events, _fail (pyStr fc.name) e⟩

/-- Python `a or b` on optional URL strings (`file_url = file_url or url`):
`None` and `""` are falsy. -/
def pythonOr (a b : Option String) : Option String :=
  match a with
  | some s => if s = "" then b else a
  | none => b

/-- Result of `process_function_calls`. -/
structure DispatchRun where
  events : List Event
  msg : String
  url : Option String
deriving Repr

/-- The `for idx, fc in enumerate(function_calls, 1)` loop, accumulating the
combined output and first-truthy URL left to right. -/
def pfcLoop (n : Nat) : Nat → String × Option String → List ToolCall →
    List Event × String × Option String
  | _, acc, [] => ([], acc.1, acc.2)
  | idx, acc, fc :: rest =>
    let ex := execute_function_call fc
    let tail := pfcLoop n (idx + 1) (acc.1 ++ ex.result.1, pythonOr acc.2 ex.result.2) rest
    ([.stream ("--- Tool " ++ toString idx ++ "/" ++ toString n ++ ": " ++
        pyStr fc.name ++ " ---\n")] ++ ex.events ++ tail.1, tail.2.1, tail.2.2)

/-- `process_function_calls(function_calls, session)`: empty input returns
`("", None)` before any session call; otherwise the progress header, the
per-call loop, and the completion footer.  (The per-call banner reads the
name with `fc.get("function", {}).get("name", "unknown")`; in this model the
key always exists, holding `None` for a nameless call.) -/
def process_function_calls (calls : List ToolCall) : DispatchRun :=
  match calls with
  | [] => ⟨[], "", none⟩
  | _ =>
    let n := calls.length
    let t := pfcLoop n 1 ("", none) calls
    ⟨[.stream ("Executing " ++ toString n ++ " tool(s)...\n")] ++ t.1 ++
     [.stream ("All " ++ toString n ++ " tool(s) completed!\n")], t.2.1, t.2.2⟩

/-- Message contributed by one call (spec-side shorthand). -/
def execMsg (fc : ToolCall) : String := (execute_function_call fc).result.1

/-- Artifact URL contributed by one call (spec-side shorthand). -/
def execUrl (fc : ToolCall) : Option String := (execute_function_call fc).result.2

/-- Concatenation of per-call messages in call order (spec-side shorthand). -/
def msgsConcat : List ToolCall → String
  | [] => ""
  | fc :: rest => execMsg fc ++ msgsConcat rest

/-! ## Tool-call stream accumulator (`main.py`, delta loop) -/

/-- One step of the accumulator: on `len(function_calls) <= tool_call.index`
allocate a new record (id/name fixed, empty arguments) and announce the
call; then, for a truthy chunk, `function_calls[tool_call.index][...] += ...`
— `none` models the `IndexError` raised when the index is still out of range
after the single append. -/
def accumStep (st : List ToolCall × List Event) (f : Fragment) :
    Option (List ToolCall × List Event) :=
  let calls0 := st.1
  let calls1 := if calls0.length ≤ f.index
    then calls0 ++ [⟨f.id, f.name, ""⟩] else calls0
  let evs1 := if calls0.length ≤ f.index
    then st.2 ++ [.streamChunk ("\n🔧 **Calling function:** " ++ pyStr f.name)]
    else st.2
  if f.chunk = "" then some (calls1, evs1)
  else if h : f.index < calls1.length then
    some (calls1.set f.index
      ⟨calls1[f.index].id, calls1[f.index].name,
       calls1[f.index].arguments ++ f.chunk⟩, evs1)
  else none

/-- Folding the whole fragment stream from the empty state. -/
def accumulate (frags : List Fragment) : Option (List ToolCall × List Event) :=
  frags.foldlM accumStep ([], [])

/-- The reassembled records only (the claims quantify over these). -/
def accCalls (frags : List Fragment) : Option (List ToolCall) :=
  (accumulate frags).map Prod.fst

/-- Spec-side: concatenation, in arrival order and with no separator, of the
chunks belonging to index `i`. -/
def chunksOf (i : Nat) : List Fragment → String
  | [] => ""
  | f :: r => (if f.index = i then f.chunk else "") ++ chunksOf i r

/-- Spec-side: the first fragment carrying index `i`. -/
def firstOf (i : Nat) (l : List Fragment) : Option Fragment :=
  l.find? (fun f => f.index == i)

/-- Spec-side: how many records the accumulator allocates, starting from `n`
existing ones. -/
def countCalls : Nat → List Fragment → Nat
  | n, [] => n
  | n, f :: r => countCalls (if n ≤ f.index then n + 1 else n) r

/-- Monotone first-arrival discipline: every fragment's index refers to an
already-open call or opens the next one (index = number of open calls). -/
def wellIndexedB : Nat → List Fragment → Bool
  | _, [] => true
  | n, f :: r => f.index ≤ n && wellIndexedB (if n ≤ f.index then n + 1 else n) r

/-- Spec-side reassembly: one record per index, id/name from the index's
first fragment, arguments the separator-free chunk concatenation. -/
def specCalls (frags : List Fragment) : List ToolCall :=
  (List.range (countCalls 0 frags)).map (fun i =>
    { id := ((firstOf i frags).map Fragment.id).join
      name := ((firstOf i frags).map Fragment.name).join
      arguments := chunksOf i frags })

/-! ## Request processing (`process_message`, `main.py`) -/

/-- One streaming delta from the model provider: a text fragment or a batch
of tool-call fragments (spec section 6; usage-only deltas carry nothing modelled
here). -/
inductive Delta where
  | text (s : String)
  | frags (l : List Fragment)

/-- One `{role, content}` turn of `conversation_memory[thread_id]`. -/
structure Turn where
  role : String
  content : String
deriving Repr, DecidableEq

/-- Truthiness of `vars.get("OPENAI_API_KEY")` (`if not openai_api_key`). -/
def pyStrTruthy : Option String → Bool
  | some s => !s.isEmpty
  | none => false

def apiKeyErrMsg : String :=
  "Sorry, the OpenAI API key is missing. Please configure it in the agent settings."

/-- The streaming loop of `process_message`: text deltas are streamed and
concatenated into `full_response`, tool-call deltas feed the accumulator;
`none` models the `IndexError` escaping the loop. -/
def processDeltas : List Delta → List ToolCall × List Event → String →
    Option (List ToolCall × List Event × String)
  | [], st, full => some (st.1, st.2, full)
  | .text s :: rest, st, full =>
    processDeltas rest (st.1, st.2 ++ [.streamChunk s]) (full ++ s)
  | .frags fs :: rest, st, full =>
    match fs.foldlM accumStep st with
    | some st1 => processDeltas rest st1 full
    | none => none

/-- Result of one `process_message` run, viewed on a single thread: the
thread's memory after the run and the emitted collaborator calls. -/
structure PMRun where
  memory : List Turn
  events : List Event
deriving Repr

/-- `process_message(data)` for one thread.

From `main.py`: the API-key guard (which returns before any memory write),
the user-turn append, the streaming loop, the assistant-turn append and the
final `complete_response`/`send_error` calls.

Modelled from the spec: the wiring that hands the accumulated call list to
the Dispatch & Aggregation Engine together with the session (spec sections 2 and
4.6) — the dispatch variant whose signature `main.py` line 173 targets is
part of this repository but not under `src/` (the `src/` copy of
`process_function_calls` takes `(function_calls, session)`).

On the two exception paths (upstream stream failure, accumulator index
error) the trace is abbreviated to the final `send_error`; partial deltas
already streamed are not retained (no claim quantifies over them).  When
streaming and accumulation succeed, `full_response += function_result` is
modelled unconditionally — skipping the append of an empty string is the
identity. -/
def process_message (apiKey : Option String) (userMsg : String)
    (streamed : Except PyErr (List Delta)) (mem : List Turn) : PMRun :=
  if !(pyStrTruthy apiKey) then
    ⟨mem, [.streamChunk apiKeyErrMsg, .completeResponse apiKeyErrMsg none]⟩
  else
    let mem1 := mem ++ [⟨"user", userMsg⟩]
    match streamed with
    | .error e => ⟨mem1, [.errorSend ("Error processing message: " ++ pyErrStr e)]⟩
    | .ok ds =>
      match processDeltas ds ([], []) "" with
      | none => ⟨mem1, [.errorSend "Error processing message: list index out of range"]⟩
      | some (calls, evs, fullText) =>
        let d := process_function_calls calls
        let full := fullText ++ d.msg
        ⟨mem1 ++ [⟨"assistant", full⟩],
         evs ++ d.events ++ [.completeResponse full d.url]⟩

/-! ## Spec-side observation helpers -/

/-- Whether a trace uses the legacy single-track audio channel. -/
def usesAudioSingleB (evs : List Event) : Bool :=
  evs.any (fun e => match e with
    | .audioSendSingle _ _ _ => true
    | _ => false)

/-- Whether a trace uses the multi-track audio channel. -/
def usesAudioMultiB (evs : List Event) : Bool :=
  evs.any (fun e => match e with
    | .audioSend _ => true
    | _ => false)

/-- Substring containment on strings. -/
def containsSubstrB (needle hay : String) : Bool :=
  isInfixB needle.data hay.data

/-- The announcement streamed when the accumulator opens a new call. -/
def announceEvent (f : Fragment) : Event :=
  .streamChunk ("\n🔧 **Calling function:** " ++ pyStr f.name)

/-- The "draw me a cat" scenario's tool-call fragment stream: one
`generate_image` call whose arguments arrive in 3 chunks. -/
def scenarioFrags : List Fragment :=
  [⟨0, some "call_1", some "generate_image", "\x7b\"prompt\""⟩,
   ⟨0, none, none, ":\"a cat\""⟩,
   ⟨0, none, none, "\x7d"⟩]

/-- The scenario's model response: no text deltas, the fragments above. -/
def scenarioDeltas : List Delta :=
  [.frags [⟨0, some "call_1", some "generate_image", "\x7b\"prompt\""⟩],
   .frags [⟨0, none, none, ":\"a cat\""⟩],
   .frags [⟨0, none, none, "\x7d"⟩]]

/-- The single reassembled call of the scenario. -/
def scenarioCall : ToolCall :=
  ⟨some "call_1", some "generate_image", "\x7b\"prompt\":\"a cat\"\x7d"⟩

/-- A call whose name is not in the dispatch table. -/
def unknownCall : ToolCall :=
  ⟨some "call_x", some "nonexistent_tool", "\x7b\x7d"⟩

/-! ## Helper lemmas -/

theorem list_set_self {α : Type} (l : List α) (i : Nat) (h : i < l.length) :
    l.set i l[i] = l := by
  apply List.ext_getElem
  · simp
  · intro j h1 h2
    by_cases hj : i = j
    · subst hj; simp
    · rw [List.getElem_set_ne hj]

theorem list_set_append_last {α : Type} (l : List α) (a b : α) :
    (l ++ [a]).set l.length b = l ++ [b] := by
  simp [List.set_append]

theorem accumStep_new (calls : List ToolCall) (evs : List Event) (f : Fragment)
    (h : f.index = calls.length) :
    accumStep (calls, evs) f =
      some (calls ++ [⟨f.id, f.name, f.chunk⟩], evs ++ [announceEvent f]) := by
  obtain ⟨i, fid, fname, fchunk⟩ := f
  simp only at h
  subst h
  unfold accumStep announceEvent
  simp only [le_refl, if_pos]
  by_cases hc : fchunk = ""
  · subst hc
    simp
  · rw [if_neg hc]
    have hlt : calls.length < (calls ++ [(⟨fid, fname, ""⟩ : ToolCall)]).length := by simp
    rw [dif_pos hlt]
    simp [List.getElem_concat_length, list_set_append_last, String.empty_append]

theorem accumStep_known (calls : List ToolCall) (evs : List Event) (f : Fragment)
    (h : f.index < calls.length) :
    accumStep (calls, evs) f =
      some (calls.set f.index
        ⟨calls[f.index].id, calls[f.index].name,
         calls[f.index].arguments ++ f.chunk⟩, evs) := by
  have hnle : ¬ (calls.length ≤ f.index) := not_le.mpr h
  simp only [accumStep, if_neg hnle]
  by_cases hc : f.chunk = ""
  · rw [if_pos hc, hc]
    have heta : (⟨calls[f.index].id, calls[f.index].name,
        calls[f.index].arguments ++ ""⟩ : ToolCall) = calls[f.index] := by
      simp [String.append_empty]
    rw [heta, list_set_self]
  · rw [if_neg hc, dif_pos h]

theorem accum_go (frags : List Fragment) :
    ∀ (calls : List ToolCall) (evs : List Event),
      wellIndexedB calls.length frags = true →
      ∃ out oevs,
        frags.foldlM accumStep (calls, evs) = some (out, oevs) ∧
        out.length = countCalls calls.length frags ∧
        (∀ i, (hi : i < calls.length) → (ho : i < out.length) →
          out[i].id = calls[i].id ∧ out[i].name = calls[i].name ∧
          out[i].arguments = calls[i].arguments ++ chunksOf i frags) ∧
        (∀ i, calls.length ≤ i → (ho : i < out.length) →
          ∃ f0, firstOf i frags = some f0 ∧
            out[i].id = f0.id ∧ out[i].name = f0.name ∧
            out[i].arguments = chunksOf i frags) := by
  induction frags with
  | nil =>
    intro calls evs _
    refine ⟨calls, evs, by simp [List.foldlM], by simp [countCalls], ?_, ?_⟩
    · intro i hi ho
      exact ⟨rfl, rfl, by simp [chunksOf, String.append_empty]⟩
    · intro i hle ho
      omega
  | cons f r ih =>
    intro calls evs hw
    rw [wellIndexedB] at hw
    rw [Bool.and_eq_true, decide_eq_true_eq] at hw
    obtain ⟨h1, h2⟩ := hw
    rw [List.foldlM_cons]
    by_cases hcase : f.index = calls.length
    · -- first fragment of a new call
      rw [accumStep_new calls evs f hcase]
      have hcond : calls.length ≤ f.index := le_of_eq hcase.symm
      rw [if_pos hcond] at h2
      have hlen1 : (calls ++ [(⟨f.id, f.name, f.chunk⟩ : ToolCall)]).length
          = calls.length + 1 := by simp
      obtain ⟨out, oevs, hfold, hlen, hp1, hp2⟩ :=
        ih (calls ++ [⟨f.id, f.name, f.chunk⟩]) (evs ++ [announceEvent f])
          (by rw [hlen1]; exact h2)
      refine ⟨out, oevs, by simpa using hfold, ?_, ?_, ?_⟩
      · rw [hlen, hlen1, countCalls, if_pos hcond]
      · intro i hi ho
        have hi1 : i < (calls ++ [(⟨f.id, f.name, f.chunk⟩ : ToolCall)]).length := by
          rw [hlen1]; omega
        obtain ⟨e1, e2, e3⟩ := hp1 i hi1 ho
        have hne : f.index ≠ i := by omega
        have hgl : (calls ++ [(⟨f.id, f.name, f.chunk⟩ : ToolCall)])[i] = calls[i] :=
          List.getElem_append_left ..
        refine ⟨by rw [e1, hgl], by rw [e2, hgl], ?_⟩
        rw [e3, hgl, chunksOf, if_neg hne, String.empty_append]
      · intro i hle ho
        by_cases hieq : i = calls.length
        · subst hieq
          have hi1 : calls.length <
              (calls ++ [(⟨f.id, f.name, f.chunk⟩ : ToolCall)]).length := by
            rw [hlen1]; omega
          obtain ⟨e1, e2, e3⟩ := hp1 calls.length hi1 ho
          have hgl : (calls ++ [(⟨f.id, f.name, f.chunk⟩ : ToolCall)])[calls.length]
              = ⟨f.id, f.name, f.chunk⟩ := by
            simp
          refine ⟨f, ?_, ?_, ?_, ?_⟩
          · rw [firstOf, List.find?]
            have : (f.index == calls.length) = true := by
              simp [hcase]
            simp [this]
          · rw [e1, hgl]
          · rw [e2, hgl]
          · rw [e3, hgl, chunksOf, if_pos hcase]
        · have hgt : calls.length + 1 ≤ i := by omega
          obtain ⟨f0, hf0, e1, e2, e3⟩ := hp2 i (by rw [hlen1]; omega) ho
          have hne : f.index ≠ i := by omega
          refine ⟨f0, ?_, e1, e2, ?_⟩
          · rw [firstOf, List.find?]
            have : (f.index == i) = false := by
              simp [hne]
            simp only [this]
            exact hf0
          · rw [e3, chunksOf, if_neg hne, String.empty_append]
    · -- fragment of an already-open call
      have hlt : f.index < calls.length := by omega
      rw [accumStep_known calls evs f hlt]
      have hcond : ¬ (calls.length ≤ f.index) := not_le.mpr hlt
      rw [if_neg hcond] at h2
      set newRec : ToolCall :=
        ⟨calls[f.index].id, calls[f.index].name,
         calls[f.index].arguments ++ f.chunk⟩ with hnewRec
      have hlenset : (calls.set f.index newRec).length = calls.length := by simp
      obtain ⟨out, oevs, hfold, hlen, hp1, hp2⟩ :=
        ih (calls.set f.index newRec) evs (by rw [hlenset]; exact h2)
      refine ⟨out, oevs, by simpa using hfold, ?_, ?_, ?_⟩
      · rw [hlen, hlenset, countCalls, if_neg hcond]
      · intro i hi ho
        have hi1 : i < (calls.set f.index newRec).length := by rw [hlenset]; omega
        obtain ⟨e1, e2, e3⟩ := hp1 i hi1 ho
        by_cases hieq : f.index = i
        · subst hieq
          have hgs : (calls.set f.index newRec)[f.index] = newRec := by
            simp
          refine ⟨by rw [e1, hgs], by rw [e2, hgs], ?_⟩
          rw [e3, hgs, chunksOf, if_pos rfl, hnewRec]
          simp [String.append_assoc]
        · have hgs : (calls.set f.index newRec)[i] = calls[i] :=
            List.getElem_set_ne hieq _
          refine ⟨by rw [e1, hgs], by rw [e2, hgs], ?_⟩
          rw [e3, hgs, chunksOf, if_neg hieq, String.empty_append]
      · intro i hle ho
        obtain ⟨f0, hf0, e1, e2, e3⟩ := hp2 i (by rw [hlenset]; omega) ho
        have hne : f.index ≠ i := by omega
        refine ⟨f0, ?_, e1, e2, ?_⟩
        · rw [firstOf, List.find?]
          have : (f.index == i) = false := by simp [hne]
          simp only [this]
          exact hf0
        · rw [e3, chunksOf, if_neg hne, String.empty_append]

theorem runWithLoading_result {α : Type} (key : String) (d : ℚ) (op : TimedOp α) :
    (runWithLoading key d op).result = op.result := by
  unfold runWithLoading
  cases op.result <;> rfl

theorem dalleJob_ok (args : Json) (a : String) (h : (dalleJob args).result = .ok a) :
    a = dummyImageUrl := by
  unfold dalleJob at h
  split at h <;> simp_all

theorem pfcLoop_closed (l : List ToolCall) :
    ∀ (n idx : Nat) (acc : String × Option String),
      (pfcLoop n idx acc l).2.1 = acc.1 ++ msgsConcat l ∧
      (pfcLoop n idx acc l).2.2 = List.foldl pythonOr acc.2 (l.map execUrl) := by
  induction l with
  | nil =>
    intro n idx acc
    simp [pfcLoop, msgsConcat, String.append_empty]
  | cons fc rest ih =>
    intro n idx acc
    obtain ⟨h1, h2⟩ := ih n (idx + 1)
      (acc.1 ++ (execute_function_call fc).result.1,
       pythonOr acc.2 (execute_function_call fc).result.2)
    constructor
    · simp only [pfcLoop]
      rw [h1, msgsConcat]
      simp [execMsg, String.append_assoc]
    · simp only [pfcLoop]
      rw [h2, List.map_cons, List.foldl_cons]
      rfl

theorem process_function_calls_closed (calls : List ToolCall) (h : calls ≠ []) :
    (process_function_calls calls).msg = msgsConcat calls ∧
    (process_function_calls calls).url =
      List.foldl pythonOr none (calls.map execUrl) := by
  obtain ⟨h1, h2⟩ := pfcLoop_closed calls calls.length 1 ("", none)
  cases calls with
  | nil => exact absurd rfl h
  | cons fc rest =>
    constructor
    · simp only [process_function_calls]
      rw [h1, String.empty_append]
    · simp only [process_function_calls]
      rw [h2]

theorem msgsConcat_append (l1 l2 : List ToolCall) :
    msgsConcat (l1 ++ l2) = msgsConcat l1 ++ msgsConcat l2 := by
  induction l1 with
  | nil => simp [msgsConcat, String.empty_append]
  | cons fc rest ih =>
    simp only [List.cons_append, msgsConcat]
    rw [show rest.append l2 = rest ++ l2 from rfl, ih, String.append_assoc]

theorem execMsg_unknown (fc : ToolCall) (h : lookupHandler fc.name = none) :
    execMsg fc = " ❌ Unknown function: " ++ pyStr fc.name := by
  simp [execMsg, execute_function_call, h]

theorem execUrl_unknown (fc : ToolCall) (h : lookupHandler fc.name = none) :
    execUrl fc = none := by
  simp [execUrl, execute_function_call, h]

theorem pythonOr_keeps (u : String) (hu : u ≠ "") (x : Option String) :
    pythonOr (some u) x = some u := by
  simp [pythonOr, hu]

theorem foldl_pythonOr_keeps (u : String) (hu : u ≠ "") (l : List (Option String)) :
    List.foldl pythonOr (some u) l = some u := by
  induction l with
  | nil => rfl
  | cons x xs ih => rw [List.foldl_cons, pythonOr_keeps u hu, ih]

theorem sendAudioBody_url (data : Json) (ev : List Event) (m : String)
    (u : Option String) (h : sendAudioBody data = .ok (ev, m, u)) : u = none := by
  unfold sendAudioBody at h
  simp only [bind, Except.bind, pure, Except.pure] at h
  repeat' split at h
  all_goals simp_all

theorem urlOk_generate_image (fc : ToolCall) (m : String) (u : Option String)
    (h : (handle_generate_image fc).out = .ok (m, u)) :
    u = none ∨ u = some dummyImageUrl := by
  unfold handle_generate_image at h
  split at h
  · simp [parseFailRun] at h
  · rename_i args heq
    simp only [] at h
    cases hg : (runWithLoading "generating" (3/2) (dalleJob args)).result with
    | ok url =>
      rw [hg] at h
      simp only [] at h
      right
      rw [runWithLoading_result] at hg
      have := dalleJob_ok args url hg
      subst this
      simp_all
    | error e =>
      rw [hg] at h
      simp_all [_fail]

theorem urlOk_send_video (fc : ToolCall) (m : String) (u : Option String)
    (h : (handle_send_video fc).out = .ok (m, u)) :
    u = none ∨ u = some dummyImageUrl := by
  left
  unfold handle_send_video at h
  split at h
  · simp [parseFailRun] at h
  · rename_i args heq
    simp only [] at h
    cases hg : (runWithLoading "video" (3/2) (videoJob args)).result with
    | ok p =>
      obtain ⟨uv, y⟩ := p
      rw [hg] at h
      simp_all
    | error e =>
      rw [hg] at h
      simp_all [_fail]

theorem urlOk_send_audio (fc : ToolCall) (m : String) (u : Option String)
    (h : (handle_send_audio fc).out = .ok (m, u)) :
    u = none ∨ u = some dummyImageUrl := by
  left
  unfold handle_send_audio at h
  split at h
  · simp [parseFailRun] at h
  · rename_i args heq
    simp only [] at h
    cases hg : (runWithLoading "audio" (3/2)
        (⟨1, [], .ok args⟩ : TimedOp Json)).result with
    | ok data =>
      rw [hg] at h
      simp only [] at h
      cases hb : sendAudioBody data with
      | ok t =>
        obtain ⟨ev, m2, u2⟩ := t
        rw [hb] at h
        have := sendAudioBody_url _ _ _ _ hb
        simp_all
      | error e =>
        rw [hb] at h
        simp_all [_fail]
    | error e =>
      rw [hg] at h
      simp_all [_fail]

theorem urlOk_send_location (fc : ToolCall) (m : String) (u : Option String)
    (h : (handle_send_location fc).out = .ok (m, u)) :
    u = none ∨ u = some dummyImageUrl := by
  left
  unfold handle_send_location at h
  split at h
  · simp [parseFailRun] at h
  · rename_i args heq
    simp only [] at h
    cases hg : (runWithLoading "map" (3/2) (locationJob args)).result with
    | ok p =>
      obtain ⟨lat, lng⟩ := p
      rw [hg] at h
      simp_all
    | error e =>
      rw [hg] at h
      simp_all [_fail]

theorem urlOk_send_trace (fc : ToolCall) (m : String) (u : Option String)
    (h : (handle_send_trace fc).out = .ok (m, u)) :
    u = none ∨ u = some dummyImageUrl := by
  left
  unfold handle_send_trace at h
  repeat' split at h
  all_goals simp_all [parseFailRun]

theorem urlOk_send_buttons (fc : ToolCall) (m : String) (u : Option String)
    (h : (handle_send_buttons fc).out = .ok (m, u)) :
    u = none ∨ u = some dummyImageUrl := by
  left
  unfold handle_send_buttons at h
  repeat' split at h
  all_goals simp_all [parseFailRun]

theorem urlOk_send_card_list (fc : ToolCall) (m : String) (u : Option String)
    (h : (handle_send_card_list fc).out = .ok (m, u)) :
    u = none ∨ u = some dummyImageUrl := by
  left
  unfold handle_send_card_list at h
  split at h
  · simp [parseFailRun] at h
  · rename_i args heq
    simp only [] at h
    cases hg : (runWithLoading "card.list" (3/2) (cardJob args)).result with
    | ok cards =>
      rw [hg] at h
      simp_all
    | error e =>
      rw [hg] at h
      simp_all [_fail]

theorem urlOk_track_usage (fc : ToolCall) (m : String) (u : Option String)
    (h : (handle_track_usage fc).out = .ok (m, u)) :
    u = none ∨ u = some dummyImageUrl := by
  left
  unfold handle_track_usage at h
  repeat' split at h
  all_goals simp_all [parseFailRun]

theorem urlOk_complete_streaming (fc : ToolCall) (m : String) (u : Option String)
    (h : (handle_complete_streaming_example fc).out = .ok (m, u)) :
    u = none ∨ u = some dummyImageUrl := by
  left
  unfold handle_complete_streaming_example at h
  simp_all

theorem urlOk_test_loading_states (fc : ToolCall) (m : String) (u : Option String)
    (h : (handle_test_loading_states fc).out = .ok (m, u)) :
    u = none ∨ u = some dummyImageUrl := by
  left
  unfold handle_test_loading_states at h
  try simp only [] at h
  repeat' split at h
  all_goals simp_all [parseFailRun]

theorem urlOk_test_image (fc : ToolCall) (m : String) (u : Option String)
    (h : (handle_test_image fc).out = .ok (m, u)) :
    u = none ∨ u = some dummyImageUrl := by
  left
  unfold handle_test_image at h
  try simp only [] at h
  repeat' split at h
  all_goals simp_all [parseFailRun]

theorem urlOk_test_video (fc : ToolCall) (m : String) (u : Option String)
    (h : (handle_test_video fc).out = .ok (m, u)) :
    u = none ∨ u = some dummyImageUrl := by
  left
  unfold handle_test_video at h
  try simp only [] at h
  repeat' split at h
  all_goals simp_all [parseFailRun]

theorem urlOk_test_cards (fc : ToolCall) (m : String) (u : Option String)
    (h : (handle_test_cards fc).out = .ok (m, u)) :
    u = none ∨ u = some dummyImageUrl := by
  left
  unfold handle_test_cards at h
  try simp only [] at h
  repeat' split at h
  all_goals simp_all [parseFailRun, _fail]

theorem urlOk_test_audio (fc : ToolCall) (m : String) (u : Option String)
    (h : (handle_test_audio fc).out = .ok (m, u)) :
    u = none ∨ u = some dummyImageUrl := by
  left
  unfold handle_test_audio at h
  try simp only [] at h
  repeat' split at h
  all_goals simp_all [parseFailRun, _fail]

theorem urlOk_test_map (fc : ToolCall) (m : String) (u : Option String)
    (h : (handle_test_map fc).out = .ok (m, u)) :
    u = none ∨ u = some dummyImageUrl := by
  left
  unfold handle_test_map at h
  try simp only [] at h
  repeat' split at h
  all_goals simp_all [parseFailRun]

theorem urlOk_test_buttons (fc : ToolCall) (m : String) (u : Option String)
    (h : (handle_test_buttons fc).out = .ok (m, u)) :
    u = none ∨ u = some dummyImageUrl := by
  left
  unfold handle_test_buttons at h
  try simp only [] at h
  repeat' split at h
  all_goals simp_all [parseFailRun, _fail]

theorem execUrl_with_handler (fc : ToolCall) (h : ToolCall → HandlerRun)
    (hl : lookupHandler fc.name = some h)
    (hok : ∀ m u, (h fc).out = .ok (m, u) → u = none ∨ u = some dummyImageUrl) :
    execUrl fc = none ∨ execUrl fc = some dummyImageUrl := by
  simp only [execUrl, execute_function_call, hl]
  cases ho : (h fc).out with
  | ok p =>
    obtain ⟨m, u⟩ := p
    simpa using hok m u ho
  | error e =>
    left
    simp [_fail]

/-- Every call's contributed URL is either absent or the fixed placeholder:
only `handle_generate_image` ever returns a URL. -/
theorem execUrl_cases (fc : ToolCall) :
    execUrl fc = none ∨ execUrl fc = some dummyImageUrl := by
  cases hn : lookupHandler fc.name with
  | none =>
    left
    simp [execUrl, execute_function_call, hn]
  | some h =>
    cases hfn : fc.name with
    | none =>
      rw [hfn] at hn
      simp [lookupHandler] at hn
    | some n =>
      have htab : FUNCTION_HANDLERS n = some h := by
        have hn2 := hn
        rw [hfn] at hn2
        simpa [lookupHandler] using hn2
      unfold FUNCTION_HANDLERS at htab
      split at htab
      · injection htab with he; subst he
        exact execUrl_with_handler fc _ hn (urlOk_generate_image fc)
      · injection htab with he; subst he
        exact execUrl_with_handler fc _ hn (urlOk_send_video fc)
      · injection htab with he; subst he
        exact execUrl_with_handler fc _ hn (urlOk_send_audio fc)
      · injection htab with he; subst he
        exact execUrl_with_handler fc _ hn (urlOk_send_location fc)
      · injection htab with he; subst he
        exact execUrl_with_handler fc _ hn (urlOk_send_trace fc)
      · injection htab with he; subst he
        exact execUrl_with_handler fc _ hn (urlOk_send_buttons fc)
      · injection htab with he; subst he
        exact execUrl_with_handler fc _ hn (urlOk_send_card_list fc)
      · injection htab with he; subst he
        exact execUrl_with_handler fc _ hn (urlOk_track_usage fc)
      · injection htab with he; subst he
        exact execUrl_with_handler fc _ hn (urlOk_complete_streaming fc)
      · injection htab with he; subst he
        exact execUrl_with_handler fc _ hn (urlOk_test_loading_states fc)
      · injection htab with he; subst he
        exact execUrl_with_handler fc _ hn (urlOk_test_image fc)
      · injection htab with he; subst he
        exact execUrl_with_handler fc _ hn (urlOk_test_video fc)
      · injection htab with he; subst he
        exact execUrl_with_handler fc _ hn (urlOk_test_cards fc)
      · injection htab with he; subst he
        exact execUrl_with_handler fc _ hn (urlOk_test_audio fc)
      · injection htab with he; subst he
        exact execUrl_with_handler fc _ hn (urlOk_test_map fc)
      · injection htab with he; subst he
        exact execUrl_with_handler fc _ hn (urlOk_test_buttons fc)
      · cases htab

theorem convertTrack_ok (tm : List (String × Json)) (hu : (objGet tm "url").isSome) :
    ∃ v, convertTrack (.obj tm) = .ok v := by
  obtain ⟨u, hu2⟩ := Option.isSome_iff_exists.mp hu
  unfold convertTrack
  simp only [pyIndex, pyGet, hu2, bind, Except.bind, pure, Except.pure]
  exact ⟨_, rfl⟩

theorem mapM_convertTrack_ok (ts : List Json)
    (hwf : ∀ t ∈ ts, ∃ tm, t = Json.obj tm ∧ (objGet tm "url").isSome) :
    ∃ built, ts.mapM convertTrack = .ok built ∧ built.length = ts.length := by
  induction ts with
  | nil => exact ⟨[], rfl, rfl⟩
  | cons t rest ih =>
    obtain ⟨tm, ht, hu⟩ := hwf t (by simp)
    obtain ⟨v, hv⟩ := convertTrack_ok tm hu
    obtain ⟨built, hb, hlen⟩ := ih (fun t2 ht2 => hwf t2 (by simp [ht2]))
    refine ⟨v :: built, ?_, by simp [hlen]⟩
    subst ht
    rw [List.mapM_cons, hv, hb]
    rfl

theorem sendAudioBody_multi (m : List (String × Json)) (ts : List Json)
    (built : List Json)
    (htr : objGet m "tracks" = some (.arr ts))
    (hne : ts ≠ [])
    (hbuilt : buildTracksJ (.arr ts) = .ok built) :
    sendAudioBody (.obj m) =
      .ok ([.audioSend built],
           " ✅ " ++ toString ts.length ++ " audio track(s) sent", none) := by
  have htruthy : jsonTruthy (.arr ts) = true := by
    cases ts with
    | nil => exact absurd rfl hne
    | cons a rest => rfl
  unfold sendAudioBody
  simp only [pyContainsKey, pyIndex, htr, Option.isSome_some, bind, Except.bind,
    pure, Except.pure, if_pos, htruthy, if_true, hbuilt]
  simp [jsonLenD, pyLen]

theorem sendAudioBody_none (m : List (String × Json))
    (htr : objGet m "tracks" = none) (hurl : objGet m "url" = none) :
    sendAudioBody (.obj m) =
      .ok ([], " ❌ No audio URL or tracks provided", none) := by
  unfold sendAudioBody
  simp only [pyContainsKey, pyIndex, htr, hurl, Option.isSome_none, bind,
    Except.bind, pure, Except.pure]
  simp

theorem runWithLoading_echo (key : String) (v : Json) :
    runWithLoading key (3/2) (⟨1, [], .ok v⟩ : TimedOp Json) =
      ⟨[.loadingStart key, .loadingEnd key], 3/2, 1/2, .ok v⟩ := by
  unfold runWithLoading
  have h1 : ((1 : ℚ) < 3/2) = True := by norm_num
  simp only [h1, if_true]
  norm_num

/-! ## Claim theorems -/

/-- C9: dispatching the empty sequence of tool calls returns the pair
(empty message, no artifact URL) immediately, with an empty event trace —
zero session calls and no other side effects. -/
theorem dispatch_empty_no_effects :
    process_function_calls [] = ⟨[], "", none⟩ := rfl

/-- C5: for every key, floor and wrapped operation, the loading guard
returns exactly at `max(T, F)` after it starts when the operation succeeds
in time `T` (hence no earlier than `max(T, F)`), and the guard emits the
"loading ended" signal for the key exactly once on every exit path — also
when the operation raises (the count over the full trace exceeds the
wrapped operation's own trace by exactly one). -/
theorem guard_min_duration_and_single_end {α : Type} (key : String)
    (minDelay : ℚ) (op : TimedOp α) :
    ((∃ a, op.result = Except.ok a) →
      (runWithLoading key minDelay op).time = max op.time minDelay) ∧
    countLoadingEnd key (runWithLoading key minDelay op).events
      = countLoadingEnd key op.events + 1 := by
  constructor
  · rintro ⟨a, ha⟩
    unfold runWithLoading
    rw [ha]
    simp only []
    by_cases hlt : op.time < minDelay
    · rw [if_pos hlt, max_eq_right (le_of_lt hlt)]
      ring
    · rw [if_neg hlt, max_eq_left (not_lt.1 hlt)]
      ring
  · unfold runWithLoading countLoadingEnd
    cases op.result <;> simp [List.filter_append, List.filter]

/-- C5 witness: a 1-second operation under the default 1.5-second floor. -/
theorem guard_min_duration_witness :
    (runWithLoading "generating" (3/2) (⟨1, [], .ok 0⟩ : TimedOp Nat)).time
      = max 1 (3/2) ∧
    countLoadingEnd "generating"
      (runWithLoading "generating" (3/2) (⟨1, [], .ok 0⟩ : TimedOp Nat)).events
      = countLoadingEnd "generating" ([] : List Event) + 1 :=
  ⟨(guard_min_duration_and_single_end "generating" (3/2)
      (⟨1, [], .ok 0⟩ : TimedOp Nat)).1 ⟨0, rfl⟩,
   (guard_min_duration_and_single_end "generating" (3/2)
      (⟨1, [], .ok 0⟩ : TimedOp Nat)).2⟩

/-- C10: when the wrapped operation raises, the guard re-raises after the
`finally` end-signal: the top-up sleep is skipped (`slept = 0`), the total
elapsed time equals the operation's own time (so the floor is not waited
out), the exception propagates unchanged, and "loading ended" still fires
exactly once. -/
theorem guard_raise_skips_floor {α : Type} (key : String) (minDelay : ℚ)
    (op : TimedOp α) (e : PyErr) (h : op.result = Except.error e) :
    (runWithLoading key minDelay op).time = op.time ∧
    (runWithLoading key minDelay op).slept = 0 ∧
    (runWithLoading key minDelay op).result = Except.error e ∧
    countLoadingEnd key (runWithLoading key minDelay op).events
      = countLoadingEnd key op.events + 1 := by
  unfold runWithLoading countLoadingEnd
  rw [h]
  simp [List.filter_append, List.filter]

/-- C10 witness: a raising operation faster than the floor ends the
indicator immediately at `T = 1 < 1.5` with no top-up sleep. -/
theorem guard_raise_skips_floor_witness :
    (runWithLoading "audio" (3/2)
      (⟨1, [], .error (.keyError "url")⟩ : TimedOp Nat)).time = 1 ∧
    (runWithLoading "audio" (3/2)
      (⟨1, [], .error (.keyError "url")⟩ : TimedOp Nat)).slept = 0 ∧
    (runWithLoading "audio" (3/2)
      (⟨1, [], .error (.keyError "url")⟩ : TimedOp Nat)).result
      = Except.error (.keyError "url") ∧
    countLoadingEnd "audio" (runWithLoading "audio" (3/2)
      (⟨1, [], .error (.keyError "url")⟩ : TimedOp Nat)).events
      = countLoadingEnd "audio" ([] : List Event) + 1 :=
  guard_raise_skips_floor "audio" (3/2) _ (.keyError "url") rfl

/-- C4 (amended): handlers can raise past their own boundary (several parse
arguments or index required keys outside any try/except), but the dispatch
layer's `execute_function_call` catches every escaping exception and
converts it into the standardized execution-error `HandlerResult` with no
artifact URL, so the failure does not propagate past dispatch. -/
theorem handler_raise_caught_at_dispatch (fc : ToolCall)
    (h : ToolCall → HandlerRun) (e : PyErr)
    (hl : lookupHandler fc.name = some h) (he : (h fc).out = Except.error e) :
    (execute_function_call fc).result = _fail (pyStr fc.name) e ∧
    (execute_function_call fc).result.2 = none := by
  constructor
  · simp only [execute_function_call, hl, he]
  · simp only [execute_function_call, hl, he, _fail]

/-- C4 counterexample: `handle_send_trace` on decodable arguments that lack
the required `content` key raises a `KeyError` past its own boundary
instead of returning a `HandlerResult` — refuting "the handler itself never
raises past its own boundary". -/
theorem send_trace_raises_counterexample :
    (handle_send_trace ⟨some "call_9", some "send_trace", "\x7b\x7d"⟩).out
      = Except.error (PyErr.keyError "content") := by rfl

/-- C4 witness: the raise above is caught at the dispatch boundary and
becomes the standardized execution-error result with no URL. -/
theorem handler_raise_caught_witness :
    (execute_function_call ⟨some "call_9", some "send_trace", "\x7b\x7d"⟩).result
      = _fail "send_trace" (PyErr.keyError "content") ∧
    (execute_function_call ⟨some "call_9", some "send_trace", "\x7b\x7d"⟩).result.2
      = none :=
  handler_raise_caught_at_dispatch _ handle_send_trace (PyErr.keyError "content")
    rfl rfl

/-- C2: for every non-empty batch whose calls each contribute a non-null
artifact URL, the aggregated primary URL is exactly the first call's URL;
every later URL is discarded by the `file_url = file_url or url` fold. -/
theorem dispatch_first_url_wins (c : ToolCall) (rest : List ToolCall)
    (h : ∀ fc ∈ c :: rest, execUrl fc ≠ none) :
    (process_function_calls (c :: rest)).url = execUrl c := by
  obtain ⟨hm, hu⟩ := process_function_calls_closed (c :: rest) (by simp)
  rw [hu, List.map_cons, List.foldl_cons]
  rcases execUrl_cases c with h0 | h0
  · exact absurd h0 (h c (by simp))
  · rw [h0]
    have h1 : pythonOr none (some dummyImageUrl) = some dummyImageUrl := rfl
    rw [h1, foldl_pythonOr_keeps dummyImageUrl (by decide)]

/-- C2 witness: two `generate_image` calls both produce the placeholder URL;
the aggregate keeps the first call's URL. -/
theorem dispatch_first_url_wins_witness :
    (process_function_calls [scenarioCall, scenarioCall]).url = some dummyImageUrl := by
  have hc : execUrl scenarioCall = some dummyImageUrl := by rfl
  have h : ∀ fc ∈ [scenarioCall, scenarioCall], execUrl fc ≠ none := by
    intro fc hfc
    have hfc2 : fc = scenarioCall := by
      simpa using hfc
    rw [hfc2, hc]
    simp
  rw [dispatch_first_url_wins scenarioCall [scenarioCall] h, hc]

/-- C3: a batch containing a call whose name is not in the dispatch table
never raises (dispatch is total by the defensive catch); that call
contributes exactly its one "unknown function" message and no artifact URL
to the combined output, and every other call — in particular every
subsequent one — still contributes its own result: the combined message
decomposes into the preceding calls' messages, the single unknown-function
notice, and the following calls' messages, and the URL fold runs over the
whole batch. -/
theorem dispatch_unknown_function_isolated (pre post : List ToolCall)
    (u : ToolCall) (h : lookupHandler u.name = none) :
    (process_function_calls (pre ++ u :: post)).msg =
      msgsConcat pre ++ ((" ❌ Unknown function: " ++ pyStr u.name) ++ msgsConcat post) ∧
    execUrl u = none ∧
    (process_function_calls (pre ++ u :: post)).url =
      List.foldl pythonOr none ((pre ++ u :: post).map execUrl) := by
  have hne : pre ++ u :: post ≠ [] := by simp
  obtain ⟨hm, hu⟩ := process_function_calls_closed _ hne
  refine ⟨?_, execUrl_unknown u h, hu⟩
  rw [hm, msgsConcat_append, msgsConcat, execMsg_unknown u h]

/-- C3 witness: an unregistered call followed by a `generate_image` call —
the unknown-function notice appears once and the later call still runs. -/
theorem dispatch_unknown_function_witness :
    ((process_function_calls ([] ++ unknownCall :: [scenarioCall])).msg =
      msgsConcat [] ++ ((" ❌ Unknown function: " ++ pyStr unknownCall.name) ++
        msgsConcat [scenarioCall])) ∧
    execUrl unknownCall = none ∧
    ((process_function_calls ([] ++ unknownCall :: [scenarioCall])).url =
      List.foldl pythonOr none (([] ++ unknownCall :: [scenarioCall]).map execUrl)) :=
  dispatch_unknown_function_isolated [] [scenarioCall] unknownCall rfl

theorem handle_send_audio_char (fc : ToolCall) (m : List (String × Json))
    (hparse : jsonLoads fc.arguments = some (.obj m)) (ev : List Event)
    (msg : String) (u : Option String)
    (hbody : sendAudioBody (.obj m) = .ok (ev, msg, u)) :
    (handle_send_audio fc).events =
      [Event.loadingStart "audio", Event.loadingEnd "audio"] ++ ev ∧
    (handle_send_audio fc).out = .ok (msg, u) := by
  unfold handle_send_audio
  rw [hparse]
  simp only [runWithLoading_echo, hbody]
  simp

/-- C6 (amended): for a decoded audio argument mapping, a *non-empty*
`tracks` list whose entries carry a `url` takes precedence over the legacy
single-track fields — the multi-track channel `audio.send` is used, the
single-track channel is not, and the result reports the track count with no
artifact URL; and when neither a `tracks` key nor a `url` key is present
the handler returns the handled, non-throwing "no audio provided" result
with no artifact URL and uses neither audio channel. -/
theorem audio_tracks_precedence (fc : ToolCall) (m : List (String × Json))
    (hparse : jsonLoads fc.arguments = some (.obj m)) :
    (∀ ts, objGet m "tracks" = some (.arr ts) → ts ≠ [] →
      (∀ t ∈ ts, ∃ tm, t = Json.obj tm ∧ (objGet tm "url").isSome) →
      ∃ built, buildTracksJ (.arr ts) = .ok built ∧ built.length = ts.length ∧
        (handle_send_audio fc).events =
          [Event.loadingStart "audio", Event.loadingEnd "audio",
           Event.audioSend built] ∧
        usesAudioSingleB (handle_send_audio fc).events = false ∧
        (handle_send_audio fc).out =
          .ok (" ✅ " ++ toString ts.length ++ " audio track(s) sent", none)) ∧
    (objGet m "tracks" = none → objGet m "url" = none →
      (handle_send_audio fc).out =
        .ok (" ❌ No audio URL or tracks provided", none) ∧
      usesAudioSingleB (handle_send_audio fc).events = false ∧
      usesAudioMultiB (handle_send_audio fc).events = false) := by
  constructor
  · intro ts htr hne hwf
    obtain ⟨built, hb, hlen⟩ := mapM_convertTrack_ok ts hwf
    have hbuilt : buildTracksJ (.arr ts) = .ok built := hb
    have hbody := sendAudioBody_multi m ts built htr hne hbuilt
    obtain ⟨hev, hout⟩ := handle_send_audio_char fc m hparse _ _ _ hbody
    refine ⟨built, hbuilt, hlen, by simpa using hev, ?_, hout⟩
    rw [hev]
    simp [usesAudioSingleB]
  · intro htr hurl
    have hbody := sendAudioBody_none m htr hurl
    obtain ⟨hev, hout⟩ := handle_send_audio_char fc m hparse _ _ _ hbody
    refine ⟨hout, ?_, ?_⟩
    · rw [hev]
      simp [usesAudioSingleB]
    · rw [hev]
      simp [usesAudioMultiB]

/-- C6 counterexample: a present-but-empty `tracks` list together with a
legacy `url` does *not* take precedence — the code requires a truthy list,
so the legacy single-track channel `audio.send_single` is used, refuting
"if a `tracks` list is present it takes precedence ... and the multi-track
session channel is used". -/
theorem audio_empty_tracks_counterexample :
    (handle_send_audio ⟨none, some "send_audio",
        "\x7b\"tracks\":[],\"url\":\"u\"\x7d"⟩).events =
      [Event.loadingStart "audio", Event.loadingEnd "audio",
       Event.audioSendSingle (.str "u") none none] ∧
    usesAudioMultiB (handle_send_audio ⟨none, some "send_audio",
        "\x7b\"tracks\":[],\"url\":\"u\"\x7d"⟩).events = false ∧
    (handle_send_audio ⟨none, some "send_audio",
        "\x7b\"tracks\":[],\"url\":\"u\"\x7d"⟩).out =
      .ok (" ✅ Audio sent", none) :=
  ⟨rfl, rfl, rfl⟩

/-- C6 witness: a one-entry tracks list, with a legacy `url` also present,
goes down the multi-track path. -/
theorem audio_tracks_precedence_witness :
    ∃ built,
      buildTracksJ (.arr [Json.obj [("url", Json.str "http://a")]]) = .ok built ∧
      built.length = 1 ∧
      (handle_send_audio ⟨none, some "send_audio",
        "\x7b\"tracks\":[\x7b\"url\":\"http://a\"\x7d],\"url\":\"legacy\"\x7d"⟩).events =
        [Event.loadingStart "audio", Event.loadingEnd "audio",
         Event.audioSend built] ∧
      usesAudioSingleB (handle_send_audio ⟨none, some "send_audio",
        "\x7b\"tracks\":[\x7b\"url\":\"http://a\"\x7d],\"url\":\"legacy\"\x7d"⟩).events = false ∧
      (handle_send_audio ⟨none, some "send_audio",
        "\x7b\"tracks\":[\x7b\"url\":\"http://a\"\x7d],\"url\":\"legacy\"\x7d"⟩).out =
        .ok (" ✅ " ++ toString (1 : Nat) ++ " audio track(s) sent", none) :=
  (audio_tracks_precedence
      ⟨none, some "send_audio",
        "\x7b\"tracks\":[\x7b\"url\":\"http://a\"\x7d],\"url\":\"legacy\"\x7d"⟩
      [("tracks", Json.arr [Json.obj [("url", Json.str "http://a")]]),
       ("url", Json.str "legacy")]
      rfl).1
    [Json.obj [("url", Json.str "http://a")]] rfl (by simp)
    (by
      intro t ht
      simp only [List.mem_singleton] at ht
      exact ⟨[("url", Json.str "http://a")], ht, rfl⟩)

/-- C1 (amended): provided fragment indexes respect the accumulator's
positional-growth discipline — each fragment's index refers to an
already-open call or opens the next one, so first fragments arrive in index
order 0, 1, 2, ... (chunks of different open calls may still interleave
arbitrarily) — the accumulator produces exactly one reassembled `ToolCall`
per distinct index, whose id and name come from that index's first fragment
and whose arguments string is the concatenation of that index's chunks in
arrival order with no separator. -/
theorem accumulator_monotone_reassembly (frags : List Fragment)
    (h : wellIndexedB 0 frags = true) :
    accCalls frags = some (specCalls frags) := by
  obtain ⟨out, oevs, hfold, hlen, hp1, hp2⟩ := accum_go frags [] [] h
  unfold accCalls accumulate
  rw [hfold]
  show some out = some (specCalls frags)
  congr 1
  apply List.ext_getElem
  · simp [specCalls, hlen]
  · intro i h1 h2
    have hspec : (specCalls frags)[i] =
        { id := ((firstOf i frags).map Fragment.id).join,
          name := ((firstOf i frags).map Fragment.name).join,
          arguments := chunksOf i frags } := by
      simp [specCalls]
    rw [hspec]
    obtain ⟨f0, hf0, e1, e2, e3⟩ := hp2 i (Nat.zero_le i) h1
    have heta : out[i] = ⟨out[i].id, out[i].name, out[i].arguments⟩ := rfl
    rw [heta, e1, e2, e3, hf0]
    rfl

/-- C1 counterexample: indexes arriving out of order are mis-merged.  The
stream holds fragments for two distinct indexes (1 then 0), so the claim
promises two reassembled calls — one per distinct index, each named by its
own first fragment.  The accumulator instead produces a single record,
taking its id/name from the index-1 fragment and its arguments from the
index-0 fragment. -/
theorem accumulator_out_of_order_counterexample :
    accCalls [⟨1, some "idA", some "fA", ""⟩, ⟨0, some "idB", some "fB", "y"⟩]
      = some [⟨some "idA", some "fA", "y"⟩] ∧
    ((accCalls [⟨1, some "idA", some "fA", ""⟩, ⟨0, some "idB", some "fB", "y"⟩]).getD
        []).length ≠ 2 := by
  constructor
  · rfl
  · decide

/-- C1 witness: an in-order stream — two chunks for index 0, then index 1 —
reassembles to the per-index specification. -/
theorem accumulator_monotone_reassembly_witness :
    wellIndexedB 0 [⟨0, some "a", some "f1", "x"⟩, ⟨0, none, none, "y"⟩,
      ⟨1, some "b", some "f2", "z"⟩] = true ∧
    accCalls [⟨0, some "a", some "f1", "x"⟩, ⟨0, none, none, "y"⟩,
      ⟨1, some "b", some "f2", "z"⟩] =
      some (specCalls [⟨0, some "a", some "f1", "x"⟩, ⟨0, none, none, "y"⟩,
        ⟨1, some "b", some "f2", "z"⟩]) :=
  ⟨by decide,
   accumulator_monotone_reassembly _ (by decide)⟩

/-- C7 (amended): the "draw me a cat" scenario.  The 3-chunk fragment
stream reassembles into exactly one `ToolCall` for `generate_image` with
arguments `{"prompt":"a cat"}`; dispatching it yields a combined message
containing `**Prompt:** a cat` (the code's markdown form — not the bare
`Prompt: a cat` of the original claim) and the non-null placeholder
artifact URL; and the thread's conversation memory gains exactly 2 entries,
the user turn then the assistant turn.  (The hand-off from the streaming
loop to dispatch follows the spec's wiring, see `process_message`.) -/
theorem cat_scenario_end_to_end :
    accCalls scenarioFrags = some [scenarioCall] ∧
    containsSubstrB "**Prompt:** a cat"
      (process_function_calls [scenarioCall]).msg = true ∧
    (process_function_calls [scenarioCall]).url = some dummyImageUrl ∧
    (process_message (some "test-key") "draw me a cat" (.ok scenarioDeltas)
        []).memory =
      [⟨"user", "draw me a cat"⟩,
       ⟨"assistant", (process_function_calls [scenarioCall]).msg⟩] ∧
    (process_message (some "test-key") "draw me a cat" (.ok scenarioDeltas)
        []).memory.length = 2 :=
  ⟨rfl, rfl, rfl, rfl, rfl⟩

/-- C7 counterexample: the combined message does not contain the literal
text `Prompt: a cat` claimed — the code emits the markdown
`**Prompt:** a cat`, whose `:**` separator breaks the claimed substring. -/
theorem cat_scenario_prompt_text_counterexample :
    containsSubstrB "Prompt: a cat" (process_function_calls [scenarioCall]).msg
      = false := by rfl

/-- C8 (amended): once the request passes the API-key guard, the user's
incoming message is appended to the thread's memory before dispatch on
every outcome: if the model stream fails, or the accumulator crashes on an
out-of-range index, memory ends with exactly the user turn appended; and
when streaming and accumulation complete, the assistant's final aggregated
text — the streamed text plus the dispatch output, which embeds any
per-tool error text — is appended after dispatch, so memory gains exactly
the user turn then the assistant turn.  (With the key missing the request
returns before any memory write — the unamended claim fails there, see the
counterexample.) -/
theorem memory_discipline (key : Option String) (msg : String)
    (streamed : Except PyErr (List Delta)) (mem : List Turn)
    (hk : pyStrTruthy key = true) :
    (∀ e, streamed = .error e →
      (process_message key msg streamed mem).memory = mem ++ [⟨"user", msg⟩]) ∧
    (∀ ds, streamed = .ok ds → processDeltas ds ([], []) "" = none →
      (process_message key msg streamed mem).memory = mem ++ [⟨"user", msg⟩]) ∧
    (∀ ds calls evs full, streamed = .ok ds →
      processDeltas ds ([], []) "" = some (calls, evs, full) →
      (process_message key msg streamed mem).memory =
        mem ++ [⟨"user", msg⟩,
                ⟨"assistant", full ++ (process_function_calls calls).msg⟩]) := by
  refine ⟨?_, ?_, ?_⟩
  · intro e he
    subst he
    simp [process_message, hk]
  · intro ds hds hacc
    subst hds
    simp [process_message, hk, hacc]
  · intro ds calls evs full hds hacc
    subst hds
    simp [process_message, hk, hacc]

/-- C8 counterexample: with the API key missing — a failure outcome of an
incoming request — the handler returns before any memory write, so the
user's message is *not* appended to the thread's memory, refuting "the
user's incoming message is appended ... regardless of outcome". -/
theorem memory_missing_key_counterexample :
    (process_message none "hello" (.ok []) []).memory = [] ∧
    (⟨"user", "hello"⟩ : Turn) ∉ (process_message none "hello" (.ok []) []).memory := by
  constructor
  · rfl
  · decide

/-- C8 witness: a keyed request with an empty model stream appends the user
turn and then the (empty) assistant turn. -/
theorem memory_discipline_witness :
    (process_message (some "k") "hi" (.ok []) []).memory =
      [] ++ [⟨"user", "hi"⟩,
             ⟨"assistant", "" ++ (process_function_calls []).msg⟩] :=
  (memory_discipline (some "k") "hi" (.ok []) [] rfl).2.2 [] [] [] "" rfl rfl
